import Mathlib

/-!
Verification of the log-tailing multiplexer in `cli/cmd/logs.go`
(`linkerd logs` command): color assignment (`ColorPicker`), selection
resolution (`validateArgs`), the per-(pod, container) tailer loop and the
aggregation/write loop of `runLogOutput`.

The Go code is shallowly embedded: the `ColorPicker` map becomes an
association list with the same lookup/insert behaviour, the concurrent
tailer and aggregator loops become pure functions over the finite sequence
of events each loop observes (line reads / channel receives), and Go's
`error` results become `Except String`.
-/

set_option autoImplicit false

namespace LinkerdLogs

/-- The chalk terminal colors used by the program. -/
inductive Color where
  | black
  | red
  | green
  | yellow
  | blue
  | magenta
  | cyan
  | white
  deriving DecidableEq, Repr

/-- ANSI code emitted by `chalk` for each color. -/
def colorCode : Color → String
  | .black => "\x1b[30m"
  | .red => "\x1b[31m"
  | .green => "\x1b[32m"
  | .yellow => "\x1b[33m"
  | .blue => "\x1b[34m"
  | .magenta => "\x1b[35m"
  | .cyan => "\x1b[36m"
  | .white => "\x1b[37m"

/-- `chalk.Color.Color(s)`: wrap `s` in the color's ANSI code and a reset. -/
def colorize (c : Color) (s : String) : String :=
  colorCode c ++ s ++ "\x1b[0m"

/-- A container inside a pod (`v1.Container`: only the name matters here). -/
structure Container where
  name : String
  deriving DecidableEq, Repr

/-- A control-plane pod (`v1.Pod`: name and its ordered container list). -/
structure Pod where
  name : String
  containers : List Container
  deriving DecidableEq, Repr

/-- `logFilter`: the selection result stored in `logCmdOpts`. -/
structure LogFilter where
  targetPod : Pod
  targetContainerName : String
  deriving DecidableEq, Repr

/-- The Go zero value `logFilter{}` (unfiltered selection). -/
def emptyFilter : LogFilter :=
  ⟨⟨"", []⟩, ""⟩

/-- Message of `errors.New("no pods to filter logs from")`. -/
def noSourcesMsg : String :=
  "no pods to filter logs from"

/-- Message of the not-found error:
`fmt.Sprintf("[%s] is not a valid container in pod [%s]", containerName, podName)`. -/
def notFoundMsg (containerName podName : String) : String :=
  "[" ++ containerName ++ "] is not a valid container in pod [" ++ podName ++ "]"

/-- `var podName string; if len(args) == 1 { podName = args[0] }`. -/
def podNameOfArgs (args : List String) : String :=
  match args with
  | [a] => a
  | _ => ""

/-- The scan loop of `validateArgs`: first pod whose name matches the
selector (or any pod when the selector is empty) and that has a container
matching the container selector (or any container when it is empty);
returns `logFilter{pod, containerName}`, else the not-found error. -/
def findFilter (podName containerName : String) : List Pod → Except String LogFilter
  | [] => .error (notFoundMsg containerName podName)
  | pod :: rest =>
    if podName == "" || podName == pod.name then
      match pod.containers.find? (fun ctr => containerName == "" || containerName == ctr.name) with
      | some _ => .ok ⟨pod, containerName⟩
      | none => findFilter podName containerName rest
    else
      findFilter podName containerName rest

/-- `validateArgs(args, pods, containerName)`.  `pods : Option (List Pod)`
models the `*v1.PodList` pointer: `none` is a nil list, `some items` a
list with `Items = items`. -/
def validateArgs (args : List String) (pods : Option (List Pod)) (containerName : String) :
    Except String LogFilter :=
  match pods with
  | none => .error noSourcesMsg
  | some items =>
    let podName := podNameOfArgs args
    if podName == "" && containerName == "" then
      .ok emptyFilter
    else
      findFilter podName containerName items

/-- Whether the selector (podName, containerName) matches the
(pod, container) pair, with `""` meaning "any" — the conjunction of the two
guards of the scan loop in `validateArgs`. -/
def selMatches (podName containerName : String) (p : Pod) (c : Container) : Bool :=
  (podName == "" || podName == p.name) && (containerName == "" || containerName == c.name)

/-- `ColorPicker`: identifier→color table (Go map, modelled as an
association list where insertion prepends), the palette, and the cursor.
The mutex makes each `pick` atomic, so the sequential model is faithful. -/
structure ColorPicker where
  m : List (String × Color)
  availableColors : List Color
  lastUsedColor : Nat
  deriving DecidableEq, Repr

/-- Lookup in the identifier→color table (`color, ok := c.m[id]`). -/
def lookupColor (id : String) : List (String × Color) → Option Color
  | [] => none
  | (k, v) :: rest => if k == id then some v else lookupColor id rest

/-- `ColorPicker.pick`: return the recorded color for `id` if present;
otherwise reset the cursor when it has run past the palette
(`c.lastUsedColor > len(c.availableColors)-1`, computed over `Int` as Go
does over `int`), assign the palette color at the cursor, record it,
advance the cursor.  `getD` stands in for Go's indexing, which cannot be
out of range for any picker reachable from `newColorPicker`. -/
def ColorPicker.pick (c : ColorPicker) (id : String) : Color × ColorPicker :=
  match lookupColor id c.m with
  | some color => (color, c)
  | none =>
    let cursor := if ((c.lastUsedColor : Int) > (c.availableColors.length : Int) - 1) then 0 else c.lastUsedColor
    let color := c.availableColors.getD cursor Color.black
    (color, { m := (id, color) :: c.m, availableColors := c.availableColors, lastUsedColor := cursor + 1 })

/-- The palette of `newColorPicker` (chalk.White is commented out in the
source). -/
def availablePalette : List Color :=
  [Color.yellow, Color.red, Color.cyan, Color.green, Color.magenta]

/-- `newColorPicker()`. -/
def newColorPicker : ColorPicker :=
  ⟨[], availablePalette, 0⟩

/-- Run a sequence of `pick` calls, keeping only the final state. -/
def applyPicks (c : ColorPicker) : List String → ColorPicker
  | [] => c
  | id :: rest => applyPicks (c.pick id).2 rest

/-- One iteration's outcome of `bufReader.ReadBytes('\n')` in the tailer
loop: a completed line, or a read error. -/
inductive ReadResult where
  | line (s : String)
  | err (e : String)
  deriving DecidableEq, Repr

/-- Everything a tailer does that is observable: the formatted lines it
sends on the `lineRead` channel, the lines it prints directly to stdout
via `fmt.Printf`, whether it ever closes the shared channel (the loop has
no close statement, so this is always `false`), and the picker state it
leaves behind. -/
structure TailerResult where
  sent : List String
  printed : List String
  closedChannel : Bool
  picker : ColorPicker
  deriving DecidableEq, Repr

/-- The tailer goroutine's read loop over the finite sequence of read
outcomes it observes: on a completed line it formats
`fmt.Sprintf("%s %s", colorPicker.pick(loglineID).Color(loglineID), line)`
and sends it on the channel; on a read error it prints
`fmt.Printf("ERR: %s\n", err)` and returns, ignoring everything after. -/
def tailerRun (loglineID : String) (picker : ColorPicker) : List ReadResult → TailerResult
  | [] => ⟨[], [], false, picker⟩
  | .line s :: rest =>
    let pk := picker.pick loglineID
    let r := tailerRun loglineID pk.2 rest
    ⟨(colorize pk.1 loglineID ++ " " ++ s) :: r.sent, r.printed, r.closedChannel, r.picker⟩
  | .err e :: _ => ⟨[], ["ERR: " ++ e ++ "\n"], false, picker⟩

/-- Observable outcome of the aggregation loop: the lines written to the
sink, and whether the process exited (`os.Exit(1)`). -/
structure DrainResult where
  written : List String
  exited : Bool
  deriving DecidableEq, Repr

/-- The aggregation loop of `runLogOutput` over the finite sequence of
lines it receives from `lineRead`, with `sinkOk n` telling whether the
`n`-th `fmt.Fprint(writer, line)` succeeds: each received line is written
immediately; on a write error the process exits at once and nothing
further is received or written. -/
def drain (sinkOk : Nat → Bool) (n : Nat) : List String → DrainResult
  | [] => ⟨[], false⟩
  | l :: rest =>
    if sinkOk n then
      let r := drain sinkOk (n + 1) rest
      ⟨l :: r.written, r.exited⟩
    else
      ⟨[], true⟩

/-- The fields of `logCmdOpts` that `runLogOutput` reads. -/
structure LogCmdOpts where
  targetPod : Pod
  targetContainerName : String
  controlPlanePods : List Pod
  deriving DecidableEq, Repr

/-- The (pod name, container name) pairs for which `runLogOutput` spawns a
tailer goroutine: one per container of every control-plane pod, but only
when `opts.targetPod.Name == "" && opts.targetContainerName == ""`; the
function has no branch spawning tailers for a non-empty filter. -/
def spawnedTailers (opts : LogCmdOpts) : List (String × String) :=
  if opts.targetPod.name == "" && opts.targetContainerName == "" then
    (opts.controlPlanePods.map (fun p => p.containers.map (fun ctr => (p.name, ctr.name)))).flatten
  else
    []

/-- `fmt.Sprintf("[%s %s]", p, c)`: the composite identifier of a tailer. -/
def loglineIDOf (p c : String) : String :=
  "[" ++ p ++ " " ++ c ++ "]"

/-- Number of lines one tailer sends for a given stream (independent of
the shared picker's interleaving, which only affects colors). -/
def tailerSentCount (p c : String) (reads : List ReadResult) : Nat :=
  (tailerRun (loglineIDOf p c) newColorPicker reads).sent.length

/-- Total number of lines all spawned tailers of a run send on the
channel, given each (pod, container)'s stream contents. -/
def runLogOutputSentCount (opts : LogCmdOpts) (streams : String → String → List ReadResult) : Nat :=
  ((spawnedTailers opts).map (fun pc => tailerSentCount pc.1 pc.2 (streams pc.1 pc.2))).sum

/-- A concrete two-pod control plane: `api` and `worker`, each with one
`stdout` container. -/
def podsC1 : List Pod :=
  [Pod.mk "api" [Container.mk "stdout"], Pod.mk "worker" [Container.mk "stdout"]]

/-- The `worker` pod of `podsC1`. -/
def workerPod : Pod :=
  Pod.mk "worker" [Container.mk "stdout"]

/-- Concrete streams: `worker` emits 3 lines then hits end of stream, and
so does `api`. -/
def streamsC1 : String → String → List ReadResult :=
  fun p _ =>
    if p == "worker" then
      [ReadResult.line "w1\n", ReadResult.line "w2\n", ReadResult.line "w3\n", ReadResult.err "EOF"]
    else
      [ReadResult.line "a1\n", ReadResult.line "a2\n", ReadResult.line "a3\n", ReadResult.err "EOF"]

/-- C8: with the source set available (non-nil), no positional argument
and an empty container flag, resolution returns the unfiltered selection
(the empty filter) with no error, for every source set. -/
theorem validateArgs_unfiltered (pods : List Pod) :
    validateArgs [] (some pods) "" = .ok emptyFilter := rfl

/-- C10: when two or more positional arguments are passed, the pod-name
selector is treated as absent (only a length-one argument list sets it),
so with an empty container flag resolution silently returns the
unfiltered selection, ignoring every argument. -/
theorem validateArgs_multi_args_unfiltered (args : List String) (pods : List Pod)
    (h : 2 ≤ args.length) :
    podNameOfArgs args = "" ∧ validateArgs args (some pods) "" = .ok emptyFilter := by
  match args, h with
  | a :: b :: rest, _ => exact ⟨rfl, rfl⟩

/-- Witness for C10 at a concrete input: two arguments, two pods. -/
theorem validateArgs_multi_args_unfiltered_witness :
    2 ≤ (["worker", "extra"] : List String).length ∧
    (podNameOfArgs ["worker", "extra"] = "" ∧
      validateArgs ["worker", "extra"] (some podsC1) "" = .ok emptyFilter) :=
  ⟨by decide, validateArgs_multi_args_unfiltered ["worker", "extra"] podsC1 (by decide)⟩

/-- C2 counterexample: an empty but available (non-nil) source set does
not produce the no-pods error: with both selector fields absent it
resolves to the unfiltered selection, and with a pod name present it
fails with the not-found message, not the no-pods message. -/
theorem emptySet_not_noSources :
    validateArgs [] (some []) "" = .ok emptyFilter ∧
    validateArgs ["worker"] (some []) "" = .error (notFoundMsg "" "worker") ∧
    notFoundMsg "" "worker" ≠ noSourcesMsg := by
  exact ⟨rfl, rfl, by decide⟩

/-- C2 (amended): for every selector, resolution against a nil
(unavailable) pod list fails with the no-pods error, and that error
differs from every not-found message. -/
theorem validateArgs_nil_noSources (args : List String) (containerName : String) :
    validateArgs args none containerName = .error noSourcesMsg ∧
    ∀ c p : String, notFoundMsg c p ≠ noSourcesMsg := by
  refine ⟨rfl, ?_⟩
  intro c p h
  have hd := congrArg (fun s => s.data.head?) h
  simp [notFoundMsg, noSourcesMsg, String.data_append] at hd

/-- C1: a run whose selection resolved to an exact filter — here
`(source = worker, subSource = "")`, which `validateArgs` resolves to the
filter `(workerPod, "")` — spawns no tailer at all in `runLogOutput`
(the spawn loop is guarded by the filter being empty), so the run sends
zero lines even though the matched source's stream holds 3 lines. -/
theorem runLogOutput_filtered_spawns_nothing :
    validateArgs ["worker"] (some podsC1) "" = .ok (LogFilter.mk workerPod "") ∧
    spawnedTailers (LogCmdOpts.mk workerPod "" podsC1) = [] ∧
    runLogOutputSentCount (LogCmdOpts.mk workerPod "" podsC1) streamsC1 = 0 ∧
    tailerSentCount "worker" "stdout" (streamsC1 "worker" "stdout") = 3 := by
  exact ⟨rfl, rfl, rfl, rfl⟩

/-- Entries of the identifier→color table survive any later `pick`. -/
theorem lookupColor_pick_preserved (s : ColorPicker) (j id : String) (v : Color)
    (h : lookupColor id s.m = some v) :
    lookupColor id ((s.pick j).2).m = some v := by
  unfold ColorPicker.pick
  cases hj : lookupColor j s.m with
  | some c => simpa using h
  | none =>
    simp [lookupColor]
    by_cases hji : j = id
    · subst hji; rw [h] at hj; cases hj
    · simp [hji, h]

/-- Right after `pick id`, the table holds the returned color for `id`. -/
theorem lookupColor_pick_self (s : ColorPicker) (id : String) :
    lookupColor id ((s.pick id).2).m = some (s.pick id).1 := by
  unfold ColorPicker.pick
  cases hj : lookupColor id s.m with
  | some c => simpa using hj
  | none => simp [lookupColor]

/-- Entries of the identifier→color table survive any sequence of picks. -/
theorem lookupColor_applyPicks_preserved (l : List String) :
    ∀ (s : ColorPicker) (id : String) (v : Color),
      lookupColor id s.m = some v → lookupColor id (applyPicks s l).m = some v := by
  induction l with
  | nil => intro s id v h; exact h
  | cons j rest ih =>
    intro s id v h
    exact ih _ _ _ (lookupColor_pick_preserved s j id v h)

/-- `pick` returns the recorded color when the identifier is known. -/
theorem pick_of_lookup (s : ColorPicker) (id : String) (v : Color)
    (h : lookupColor id s.m = some v) :
    (s.pick id).1 = v := by
  unfold ColorPicker.pick
  simp [h]

/-- C4: `pick` is idempotent per identifier: after any prefix of picks,
the color a pick of `id` returns is returned again by every later pick of
`id`, whatever picks happen in between — so an identifier keeps one color
for the lifetime of the run. -/
theorem pick_idempotent (pre mid : List String) (id : String) :
    ((applyPicks ((applyPicks newColorPicker pre).pick id).2 mid).pick id).1
      = ((applyPicks newColorPicker pre).pick id).1 := by
  apply pick_of_lookup
  apply lookupColor_applyPicks_preserved
  exact lookupColor_pick_self _ _

/-- The state invariant tying the cursor to the number of assigned
identifiers: the palette is the fixed one of `newColorPicker` and the
cursor equals `(n - 1) % 5 + 1` after `n ≥ 1` assignments (`0` before the
first). -/
def pickerInv (s : ColorPicker) : Prop :=
  s.availableColors = availablePalette ∧
  s.lastUsedColor = (if s.m.length = 0 then 0 else (s.m.length - 1) % 5 + 1)

/-- The reset-then-index cursor computation of `pick` yields `n % 5` under
the invariant. -/
theorem cursor_eq (n lastUsed : Nat)
    (hcur : lastUsed = if n = 0 then 0 else (n - 1) % 5 + 1) :
    (if ((lastUsed : Int) > (5 : Int) - 1) then 0 else lastUsed) = n % 5 := by
  by_cases hn : n = 0
  · simp [hn] at hcur
    subst hcur
    simp [hn]
  · simp [hn] at hcur
    subst hcur
    split <;> omega

/-- `pick` preserves the cursor invariant. -/
theorem pickerInv_pick {s : ColorPicker} (h : pickerInv s) (id : String) :
    pickerInv (s.pick id).2 := by
  obtain ⟨hpal, hcur⟩ := h
  unfold ColorPicker.pick
  cases hj : lookupColor id s.m with
  | some c => exact ⟨hpal, hcur⟩
  | none =>
    refine ⟨hpal, ?_⟩
    have hlen : (s.availableColors.length : Int) = 5 := by rw [hpal]; rfl
    simp only [hlen, List.length_cons]
    have := cursor_eq s.m.length s.lastUsedColor hcur
    simp only [Nat.add_sub_cancel, Nat.succ_ne_zero, if_false]
    omega

/-- Under the invariant, a fresh identifier receives the palette color at
index `n % 5`, `n` being the number of identifiers assigned before it. -/
theorem pick_fresh_color {s : ColorPicker} (h : pickerInv s) (id : String)
    (hid : lookupColor id s.m = none) :
    (s.pick id).1 = availablePalette.getD (s.m.length % 5) Color.black := by
  obtain ⟨hpal, hcur⟩ := h
  unfold ColorPicker.pick
  rw [hid]
  simp only
  rw [hpal]
  have hlen : (availablePalette.length : Int) = 5 := rfl
  rw [hlen]
  rw [cursor_eq s.m.length s.lastUsedColor hcur]

/-- Every picker reachable from `newColorPicker` satisfies the invariant. -/
theorem pickerInv_applyPicks (l : List String) :
    ∀ s : ColorPicker, pickerInv s → pickerInv (applyPicks s l) := by
  induction l with
  | nil => intro s h; exact h
  | cons j rest ih => intro s h; exact ih _ (pickerInv_pick h j)

/-- C5: colors are assigned round-robin over the palette of size 5 (≥ 4):
after any sequence of picks from a fresh picker, an identifier not yet in
the table — the `(n+1)`-th distinct identifier, where `n` is the table
size — receives the palette color at index `n % 5`; in particular the 6th
distinct identifier receives the same color as the 1st. -/
theorem pick_round_robin (seq : List String) (id : String)
    (h : lookupColor id (applyPicks newColorPicker seq).m = none) :
    ((applyPicks newColorPicker seq).pick id).1
        = availablePalette.getD ((applyPicks newColorPicker seq).m.length % 5) Color.black
      ∧ availablePalette.length = 5 ∧ 4 ≤ availablePalette.length := by
  refine ⟨?_, rfl, by decide⟩
  exact pick_fresh_color (pickerInv_applyPicks seq newColorPicker ⟨rfl, rfl⟩) id h

/-- Witness for C5: after five distinct identifiers the palette wraps, so
the sixth identifier `f` receives palette index `5 % 5 = 0`, the color of
the first. -/
theorem pick_round_robin_witness :
    lookupColor "f" (applyPicks newColorPicker ["a", "b", "c", "d", "e"]).m = none ∧
    (((applyPicks newColorPicker ["a", "b", "c", "d", "e"]).pick "f").1
        = availablePalette.getD
            ((applyPicks newColorPicker ["a", "b", "c", "d", "e"]).m.length % 5) Color.black
      ∧ availablePalette.length = 5 ∧ 4 ≤ availablePalette.length) :=
  ⟨by decide, pick_round_robin ["a", "b", "c", "d", "e"] "f" (by decide)⟩

/-- C6 counterexample: at a concrete read failure the tailer does produce
output of its own — it prints `ERR: EOF` to stdout — so it does not
terminate silently. -/
theorem tailer_error_prints :
    (tailerRun (loglineIDOf "worker" "stdout") newColorPicker [ReadResult.err "EOF"]).printed
      = ["ERR: EOF\n"] ∧
    (tailerRun (loglineIDOf "worker" "stdout") newColorPicker [ReadResult.err "EOF"]).printed
      ≠ [] := by
  exact ⟨rfl, by decide⟩

/-- C6 (amended): on the first read failure the tailer prints exactly one
diagnostic line `ERR: <error>` to stdout, then terminates: nothing after
the failure is read (no retry), nothing further is sent on the
aggregation channel, and the shared channel is never closed. -/
theorem tailer_error_behaviour (id : String) (picker : ColorPicker) (pre : List String)
    (e : String) (rest : List ReadResult) :
    tailerRun id picker (pre.map ReadResult.line ++ ReadResult.err e :: rest)
        = tailerRun id picker (pre.map ReadResult.line ++ [ReadResult.err e]) ∧
    (tailerRun id picker (pre.map ReadResult.line ++ [ReadResult.err e])).printed
        = ["ERR: " ++ e ++ "\n"] ∧
    (tailerRun id picker (pre.map ReadResult.line ++ [ReadResult.err e])).sent
        = (tailerRun id picker (pre.map ReadResult.line)).sent ∧
    (tailerRun id picker (pre.map ReadResult.line ++ [ReadResult.err e])).closedChannel
        = false := by
  induction pre generalizing picker with
  | nil => exact ⟨rfl, rfl, rfl, rfl⟩
  | cons s tl ih =>
    obtain ⟨h1, h2, h3, h4⟩ := ih (picker.pick id).2
    exact ⟨by simp [tailerRun, h1], by simp [tailerRun, h2], by simp [tailerRun, h3],
      by simp [tailerRun, h4]⟩

/-- C7: if the `n`-th sink write fails, the aggregation loop exits the
process at once: the lines written are exactly those received before the
failing one, and nothing received after the failure is ever written,
whatever it is. -/
theorem drain_write_failure (sinkOk : Nat → Bool) (n : Nat) (pre : List String)
    (bad : String) (rest : List String)
    (hpre : ∀ j, j < pre.length → sinkOk (n + j) = true)
    (hbad : sinkOk (n + pre.length) = false) :
    drain sinkOk n (pre ++ bad :: rest) = ⟨pre, true⟩ := by
  induction pre generalizing n with
  | nil =>
    have h0 : sinkOk n = false := by simpa using hbad
    simp [drain, h0]
  | cons l tl ih =>
    have h0 : sinkOk n = true := by simpa using hpre 0 (by simp)
    have htl : drain sinkOk (n + 1) (tl ++ bad :: rest) = ⟨tl, true⟩ := by
      apply ih
      · intro j hj
        have := hpre (j + 1) (by simpa using Nat.succ_lt_succ hj)
        have harith : n + (j + 1) = n + 1 + j := by omega
        rwa [harith] at this
      · have harith : n + (l :: tl).length = n + 1 + tl.length := by
          simp
          omega
        rwa [harith] at hbad
    simp [drain, h0, htl]

/-- Witness for C7: two successful writes, then a failure on the third
line; the fourth line is never written and the process exits. -/
theorem drain_write_failure_witness :
    (∀ j, j < (["l1", "l2"] : List String).length → decide (0 + j < 2) = true) ∧
    decide (0 + (["l1", "l2"] : List String).length < 2) = false ∧
    drain (fun k => decide (k < 2)) 0 (["l1", "l2"] ++ "l3" :: ["l4"])
      = ⟨["l1", "l2"], true⟩ :=
  ⟨by decide, by decide,
    drain_write_failure (fun k => decide (k < 2)) 0 ["l1", "l2"] "l3" ["l4"]
      (by decide) (by decide)⟩

/-- The scan loop, when both selector fields are present, is the
first-match linear scan: it returns the first pod whose name equals the
selector and that has a container of the requested name. -/
theorem findFilter_eq_find (podName containerName : String)
    (hp : podName ≠ "") (hc : containerName ≠ "") :
    ∀ pods : List Pod,
      findFilter podName containerName pods =
        match pods.find?
            (fun p => podName == p.name && p.containers.any (fun ctr => containerName == ctr.name)) with
        | some p => Except.ok ⟨p, containerName⟩
        | none => Except.error (notFoundMsg containerName podName) := by
  have hpb : (podName == "") = false := by simpa using hp
  have hcb : (containerName == "") = false := by simpa using hc
  intro pods
  induction pods with
  | nil => rfl
  | cons pod rest ih =>
    unfold findFilter
    simp only [hpb, hcb, Bool.false_or]
    by_cases hname : (podName == pod.name) = true
    · simp only [hname, if_true]
      cases hfind : pod.containers.find? (fun ctr => containerName == ctr.name) with
      | some c =>
        have hany : pod.containers.any (fun ctr => containerName == ctr.name) = true := by
          rw [List.any_eq_true]
          exact ⟨c, List.mem_of_find?_eq_some hfind, by simpa using List.find?_some hfind⟩
        simp [List.find?_cons, hname, hany]
      | none =>
        have hany : pod.containers.any (fun ctr => containerName == ctr.name) = false := by
          rw [Bool.eq_false_iff]
          intro habs
          rw [List.any_eq_true] at habs
          obtain ⟨c, hmem, hpc⟩ := habs
          rw [List.find?_eq_none] at hfind
          exact hfind c hmem hpc
        simp only [List.find?_cons, hname, hany, Bool.and_false, cond_false]
        exact ih
    · have hname2 : (podName == pod.name) = false := by
        rw [Bool.eq_false_iff]; exact hname
      simp only [hname2, if_false, Bool.false_and, List.find?_cons, cond_false]
      exact ih

/-- C3: with both a pod name and a container name present, resolution is a
first-match linear scan over the pod list in its order: it returns the
first pod whose name matches and that contains a matching container,
paired with the requested container name, and the not-found error when no
pod qualifies. -/
theorem validateArgs_first_match (podName containerName : String) (pods : List Pod)
    (hp : podName ≠ "") (hc : containerName ≠ "") :
    validateArgs [podName] (some pods) containerName =
      match pods.find?
          (fun p => podName == p.name && p.containers.any (fun ctr => containerName == ctr.name)) with
      | some p => Except.ok ⟨p, containerName⟩
      | none => Except.error (notFoundMsg containerName podName) := by
  have hpb : (podName == "") = false := by simpa using hp
  unfold validateArgs podNameOfArgs
  simp only [hpb, Bool.false_and, if_false]
  exact findFilter_eq_find podName containerName hp hc pods

/-- Witness for C3 at the spec's own instance: pod `worker` has containers
`[main, admin]`; the selector `(worker, admin)` resolves to the pair
`(worker pod, admin)` — the second container, never `main`. -/
theorem validateArgs_first_match_witness :
    ("worker" : String) ≠ "" ∧ ("admin" : String) ≠ "" ∧
    validateArgs ["worker"] (some [Pod.mk "worker" [Container.mk "main", Container.mk "admin"]]) "admin"
      = Except.ok ⟨Pod.mk "worker" [Container.mk "main", Container.mk "admin"], "admin"⟩ := by
  refine ⟨by decide, by decide, ?_⟩
  rw [validateArgs_first_match "worker" "admin" _ (by decide) (by decide)]
  rfl

/-- When no (pod, container) pair matches the selector, the scan loop
returns the not-found error. -/
theorem findFilter_no_match (podName containerName : String) :
    ∀ pods : List Pod,
      (∀ p ∈ pods, ∀ c ∈ p.containers, selMatches podName containerName p c = false) →
      findFilter podName containerName pods = .error (notFoundMsg containerName podName) := by
  intro pods
  induction pods with
  | nil => intro _; rfl
  | cons pod rest ih =>
    intro h
    unfold findFilter
    by_cases hg : (podName == "" || podName == pod.name) = true
    · simp only [hg, if_true]
      have hfind : pod.containers.find?
          (fun ctr => containerName == "" || containerName == ctr.name) = none := by
        rw [List.find?_eq_none]
        intro c hc hmatch
        have hm := h pod (List.mem_cons_self _ _) c hc
        unfold selMatches at hm
        rw [hg, Bool.true_and] at hm
        simp only [hm] at hmatch
        cases hmatch
      rw [hfind]
      exact ih (fun p hp c hc => h p (List.mem_cons_of_mem _ hp) c hc)
    · have hg2 : (podName == "" || podName == pod.name) = false := by
        rw [Bool.eq_false_iff]; exact hg
      simp only [hg2, if_false]
      exact ih (fun p hp c hc => h p (List.mem_cons_of_mem _ hp) c hc)

/-- C9 (amended): for every non-empty pod list and every selector with at
least one field present that matches no (pod, container) pair, resolution
fails with the not-found error, whose message contains both the requested
container name and the requested pod name as substrings. -/
theorem validateArgs_not_found_names (podName containerName : String) (pods : List Pod)
    (_hne : pods ≠ [])
    (hsel : ¬(podName = "" ∧ containerName = ""))
    (hnomatch : ∀ p ∈ pods, ∀ c ∈ p.containers, selMatches podName containerName p c = false) :
    validateArgs [podName] (some pods) containerName
        = .error (notFoundMsg containerName podName) ∧
    (∃ a b, notFoundMsg containerName podName = a ++ containerName ++ b) ∧
    (∃ a b, notFoundMsg containerName podName = a ++ podName ++ b) := by
  refine ⟨?_,
    ⟨"[", "] is not a valid container in pod [" ++ podName ++ "]", ?_⟩,
    ⟨"[" ++ containerName ++ "] is not a valid container in pod [", "]", ?_⟩⟩
  · have hcond : (podName == "" && containerName == "") = false := by
      rw [Bool.eq_false_iff]
      intro habs
      simp only [Bool.and_eq_true, beq_iff_eq] at habs
      exact hsel habs
    unfold validateArgs podNameOfArgs
    simp only [hcond, if_false]
    exact findFilter_no_match podName containerName pods hnomatch
  · simp [notFoundMsg, String.append_assoc]
  · simp [notFoundMsg, String.append_assoc]

/-- Witness for C9 at a concrete input: selector `(missing, "")` against a
one-pod list with no matching pod. -/
theorem validateArgs_not_found_names_witness :
    ([Pod.mk "linkerd-web" [Container.mk "web"]] : List Pod) ≠ [] ∧
    ¬(("missing" : String) = "" ∧ ("" : String) = "") ∧
    (∀ p ∈ [Pod.mk "linkerd-web" [Container.mk "web"]],
      ∀ c ∈ p.containers, selMatches "missing" "" p c = false) ∧
    (validateArgs ["missing"] (some [Pod.mk "linkerd-web" [Container.mk "web"]]) ""
        = .error (notFoundMsg "" "missing") ∧
      (∃ a b, notFoundMsg "" "missing" = a ++ "" ++ b) ∧
      (∃ a b, notFoundMsg "" "missing" = a ++ "missing" ++ b)) :=
  ⟨by decide, by decide, by decide,
    validateArgs_not_found_names "missing" "" [Pod.mk "linkerd-web" [Container.mk "web"]]
      (by decide) (by decide) (by decide)⟩

/-- C9 counterexample: a non-empty pod list whose only pod has no
containers — the all-absent selector then matches no (pod, container)
pair (there are none), yet resolution succeeds with the unfiltered
selection instead of failing with the not-found error. -/
theorem not_found_counterexample :
    ([Pod.mk "linkerd-proxy" []] : List Pod) ≠ [] ∧
    (∀ p ∈ [Pod.mk "linkerd-proxy" []], ∀ c ∈ p.containers, selMatches "" "" p c = false) ∧
    validateArgs [] (some [Pod.mk "linkerd-proxy" []]) "" = .ok emptyFilter := by
  refine ⟨by decide, by decide, rfl⟩

end LinkerdLogs
